import Mathlib

/-!
Shallow embedding of `runtime/src/impls.rs` from the cennznet repository:
the `CurrencyToVoteHandler` converters, the `FeeMultiplierUpdateHandler`
congestion controller, and the `GasHandler` two-phase gas payment protocol.

Numeric conventions: `Balance` is `u128` and `Gas` is `u64`; both are modelled
as `Nat` with explicit bounds where overflow matters.  The fee multiplier is a
`Fixed64`: an `i64` mantissa with implicit denominator `10^9`; it is modelled
as `Int` (the mantissa, "parts"), with every saturating operation clamping to
the `i64` range exactly as `sp_runtime::Fixed64` does.
-/

namespace Impls

/-- Largest `i64` value (`2^63 - 1`), the upper clamp of `Fixed64` saturation. -/
def i64Max : Nat := 9223372036854775807

/-- The saturating `i128 -> i64` conversion (`saturated_into`) restricted to the
nonnegative intermediate values of the multiplier computation. -/
def sat64 (n : Nat) : Nat := min n i64Max

namespace CurrencyToVoteHandler

/-- `CurrencyToVoteHandler::factor()`:
`(total_issuance / u64::max_value() as Balance).max(1)`.  The total issuance is
read from the staking asset currency collaborator; it is a parameter here. -/
def factor (total_issuance : Nat) : Nat :=
  max (total_issuance / 18446744073709551615) 1

/-- `impl Convert<Balance, u64>::convert(x) = (x / Self::factor()) as u64`.
The Rust `as u64` cast truncates a `u128` to its low 64 bits. -/
def convertToVote (total_issuance x : Nat) : Nat :=
  (x / factor total_issuance) % 18446744073709551616

/-- `impl Convert<u128, Balance>::convert(x) = x * Self::factor()`: an
unchecked `u128` multiplication, which wraps modulo `2^128` on overflow. -/
def convertToBalance (total_issuance x : Nat) : Nat :=
  (x * factor total_issuance) % 340282366920938463463374607431768211456

/-- The Balance -> vote conversion as the spec describes it: on overflow of the
target range the result clamps to the representable maximum (`u64::MAX`)
instead of wrapping.  Stated only to be compared with `convertToVote`. -/
def convertToVoteClamped (total_issuance x : Nat) : Nat :=
  min (x / factor total_issuance) 18446744073709551615

end CurrencyToVoteHandler

namespace FeeMultiplierUpdateHandler

/-- Modelled from the spec: `TARGET_BLOCK_FULLNESS` lives in
`crate::constants::fee`, which is not under `src/`.  The spec describes it as a
configured target-fullness ratio, and the repository's own unit tests
(`stateless_weight_mul` in `impls.rs`) pin it to 25%, i.e. `250_000_000`
`Perbill` parts out of `10^9`. -/
def TARGET_BLOCK_FULLNESS : Nat := 250000000

/-- `(TARGET_BLOCK_FULLNESS * max_weight) as u128`.  `Perbill * u32` computes
`max_weight * parts / 10^9` exactly.  `MaximumBlockWeight` is configuration
outside `src/`, so the maximum weight is a parameter throughout. -/
def targetWeight (max_weight : Nat) : Nat :=
  max_weight * TARGET_BLOCK_FULLNESS / 1000000000

/-- `diff_abs = block_weight.max(target_weight) - block_weight.min(target_weight)`
(computed in `u128`). -/
def diffAbs (max_weight w : Nat) : Nat :=
  max w (targetWeight max_weight) - min w (targetWeight max_weight)

/-- Mantissa of `Fixed64::from_rational(diff_abs as i64, max_weight as u64)`,
i.e. `diff_abs * 10^9 / max(max_weight, 1)` saturated into `i64`.  The
numerator is nonnegative, so Rust's truncating `i128` division agrees with
`Nat` division. -/
def diffParts (max_weight w : Nat) : Nat :=
  sat64 (diffAbs max_weight w * 1000000000 / max max_weight 1)

/-- Mantissa of `diff.saturating_mul(diff)`:
`diff_parts * diff_parts / 10^9` saturated into `i64`. -/
def diffSquaredParts (max_weight w : Nat) : Nat :=
  sat64 (diffParts max_weight w * diffParts max_weight w / 1000000000)

/-- Mantissa of `v.saturating_mul(diff)` where
`v = Fixed64::from_rational(4, 100_000)` has mantissa `40_000`. -/
def firstTerm (max_weight w : Nat) : Nat :=
  sat64 (40000 * diffParts max_weight w / 1000000000)

/-- Mantissa of `v_squared_2.saturating_mul(diff_squared)` where
`v_squared_2 = Fixed64::from_rational(1, 1_000_000_000)` has mantissa `1`. -/
def secondTerm (max_weight w : Nat) : Nat :=
  sat64 (1 * diffSquaredParts max_weight w / 1000000000)

/-- `i64` saturating addition of `Fixed64` mantissas (`saturating_add`). -/
def satAddI (a b : Int) : Int :=
  max (-9223372036854775808) (min (a + b) 9223372036854775807)

/-- `i64` saturating subtraction of `Fixed64` mantissas (`saturating_sub`). -/
def satSubI (a b : Int) : Int :=
  max (-9223372036854775808) (min (a - b) 9223372036854775807)

/-- `FeeMultiplierUpdateHandler::convert((block_weight, multiplier))` on
`Fixed64` mantissas.  In the positive branch the excess is
`first_term.saturating_add(second_term)` (both nonnegative `i64` values, hence
the `sat64` of their `Nat` sum), added saturatingly to the multiplier.  In the
negative branch `negative = first_term - second_term` is the plain `i64`
subtraction, subtracted saturatingly and then clamped from below by
`Fixed64::from_rational(-1, 1)`, whose mantissa is `-10^9`. -/
def convert (max_weight : Nat) (block_weight : Nat) (multiplier : Int) : Int :=
  if targetWeight max_weight ≤ block_weight then
    satAddI multiplier
      (sat64 (firstTerm max_weight block_weight + secondTerm max_weight block_weight))
  else
    max
      (satSubI multiplier
        ((firstTerm max_weight block_weight : Int) - (secondTerm max_weight block_weight : Int)))
      (-1000000000)

end FeeMultiplierUpdateHandler

section FeeMultiplierLemmas

open FeeMultiplierUpdateHandler

theorem sat64_mono {a b : Nat} (h : a ≤ b) : sat64 a ≤ sat64 b := by
  unfold sat64
  omega

theorem sat64_eq_of_le {a : Nat} (h : a ≤ i64Max) : sat64 a = a := by
  unfold sat64 i64Max at *
  omega

theorem diffAbs_of_le_target {max_weight w : Nat} (h : w ≤ targetWeight max_weight) :
    diffAbs max_weight w = targetWeight max_weight - w := by
  unfold diffAbs
  omega

theorem diffAbs_of_target_le {max_weight w : Nat} (h : targetWeight max_weight ≤ w) :
    diffAbs max_weight w = w - targetWeight max_weight := by
  unfold diffAbs
  omega

theorem diffParts_mono {max_weight a b : Nat}
    (h : diffAbs max_weight a ≤ diffAbs max_weight b) :
    diffParts max_weight a ≤ diffParts max_weight b :=
  sat64_mono (Nat.div_le_div_right (Nat.mul_le_mul_right _ h))

theorem firstTerm_mono {max_weight a b : Nat}
    (h : diffParts max_weight a ≤ diffParts max_weight b) :
    firstTerm max_weight a ≤ firstTerm max_weight b :=
  sat64_mono (Nat.div_le_div_right (Nat.mul_le_mul_left _ h))

theorem diffSquaredParts_mono {max_weight a b : Nat}
    (h : diffParts max_weight a ≤ diffParts max_weight b) :
    diffSquaredParts max_weight a ≤ diffSquaredParts max_weight b :=
  sat64_mono (Nat.div_le_div_right (Nat.mul_le_mul h h))

theorem secondTerm_mono {max_weight a b : Nat}
    (h : diffParts max_weight a ≤ diffParts max_weight b) :
    secondTerm max_weight a ≤ secondTerm max_weight b :=
  sat64_mono (Nat.div_le_div_right (Nat.mul_le_mul_left _ (diffSquaredParts_mono h)))

/-- Strictly below the target weight, `diff <= 1/4` in fixed-point parts:
`diff_parts <= 250_000_000`. -/
theorem diffParts_le_below_target {max_weight w : Nat}
    (h : w < targetWeight max_weight) :
    diffParts max_weight w ≤ 250000000 := by
  have hM : 1 ≤ max_weight := by
    rcases Nat.eq_zero_or_pos max_weight with h0 | h1
    · subst h0
      simp [targetWeight, TARGET_BLOCK_FULLNESS] at h
    · exact h1
  have hd : diffAbs max_weight w ≤ targetWeight max_weight := by
    rw [diffAbs_of_le_target h.le]
    omega
  have h1 : diffAbs max_weight w * 1000000000 ≤ max_weight * 250000000 := by
    calc diffAbs max_weight w * 1000000000
        ≤ targetWeight max_weight * 1000000000 := Nat.mul_le_mul_right _ hd
      _ ≤ max_weight * 250000000 := by
          unfold targetWeight TARGET_BLOCK_FULLNESS
          exact Nat.div_mul_le_self _ _
  have h2 : diffAbs max_weight w * 1000000000 / max max_weight 1 ≤ 250000000 := by
    rw [Nat.max_eq_left hM]
    calc diffAbs max_weight w * 1000000000 / max_weight
        ≤ max_weight * 250000000 / max_weight := Nat.div_le_div_right h1
      _ = 250000000 := Nat.mul_div_cancel_left _ (by omega)
  unfold diffParts sat64 i64Max
  omega

/-- Strictly below the target weight the second term vanishes: with
`diff_parts <= 250_000_000`, `diff_squared < 10^9` so dividing its mantissa by
`10^9` gives `0`. -/
theorem secondTerm_below_target {max_weight w : Nat}
    (h : w < targetWeight max_weight) :
    secondTerm max_weight w = 0 := by
  have hx := diffParts_le_below_target h
  have hsq : diffParts max_weight w * diffParts max_weight w ≤ 62500000000000000 :=
    Nat.mul_le_mul hx hx
  have hq : diffParts max_weight w * diffParts max_weight w / 1000000000 ≤ 62500000 := by
    calc diffParts max_weight w * diffParts max_weight w / 1000000000
        ≤ 62500000000000000 / 1000000000 := Nat.div_le_div_right hsq
      _ = 62500000 := by norm_num
  have hds : diffSquaredParts max_weight w ≤ 62500000 := by
    unfold diffSquaredParts sat64 i64Max
    omega
  unfold secondTerm sat64 i64Max
  omega

end FeeMultiplierLemmas

section FeeMultiplierClaims

open FeeMultiplierUpdateHandler

/-- C3: for every previous multiplier `m >= -1.0` (mantissa `>= -10^9`) and
every block weight `w`, the updated multiplier stays `>= -1.0`: the positive
branch adds a nonnegative excess to `m`, and the negative branch is clamped
from below by `-1.0` explicitly. -/
theorem convert_preserves_lower_bound (max_weight w : Nat) (m : Int)
    (h : -1000000000 ≤ m) :
    -1000000000 ≤ convert max_weight w m := by
  unfold convert
  split
  · unfold satAddI
    have h0 : (0 : Int) ≤ (sat64 (firstTerm max_weight w + secondTerm max_weight w) : Nat) :=
      Int.ofNat_nonneg _
    omega
  · exact le_max_right _ _

theorem convert_preserves_lower_bound_witness :
    -1000000000 ≤ (0 : Int) ∧
      -1000000000 ≤ convert 1000000000 0 0 :=
  ⟨by decide, convert_preserves_lower_bound 1000000000 0 0 (by decide)⟩

/-- C7: at a block weight equal to the target weight the update is the exact
identity: `diff_abs = 0`, so both terms vanish and the saturating addition of
zero returns the (i64-representable) multiplier unchanged. -/
theorem convert_at_target_identity (max_weight : Nat) (m : Int)
    (hlo : -9223372036854775808 ≤ m) (hhi : m ≤ 9223372036854775807) :
    convert max_weight (targetWeight max_weight) m = m := by
  have hd : diffAbs max_weight (targetWeight max_weight) = 0 := by
    unfold diffAbs
    omega
  have hx : diffParts max_weight (targetWeight max_weight) = 0 := by
    unfold diffParts
    rw [hd]
    simp [sat64, i64Max]
  have hf : firstTerm max_weight (targetWeight max_weight) = 0 := by
    unfold firstTerm
    rw [hx]
    simp [sat64, i64Max]
  have hsq : diffSquaredParts max_weight (targetWeight max_weight) = 0 := by
    unfold diffSquaredParts
    rw [hx]
    simp [sat64, i64Max]
  have hs : secondTerm max_weight (targetWeight max_weight) = 0 := by
    unfold secondTerm
    rw [hsq]
    simp [sat64, i64Max]
  unfold convert
  rw [if_pos (le_refl _), hf, hs]
  unfold satAddI sat64 i64Max
  omega

theorem convert_at_target_identity_witness :
    -9223372036854775808 ≤ (5 : Int) ∧ (5 : Int) ≤ 9223372036854775807 ∧
      convert 1000000000 (targetWeight 1000000000) 5 = 5 :=
  ⟨by decide, by decide,
    convert_at_target_identity 1000000000 5 (by decide) (by decide)⟩

/-- C9: strictly below the target weight, `second_term <= first_term` (indeed
the second term's mantissa is `0` there), so the unchecked `i64` subtraction
`first_term - second_term` cannot underflow and the subtracted adjustment is
nonnegative. -/
theorem below_target_second_le_first (max_weight w : Nat)
    (h : w < targetWeight max_weight) :
    secondTerm max_weight w ≤ firstTerm max_weight w := by
  rw [secondTerm_below_target h]
  exact Nat.zero_le _

theorem below_target_second_le_first_witness :
    0 < targetWeight 1000000000 ∧
      secondTerm 1000000000 0 ≤ firstTerm 1000000000 0 :=
  ⟨by decide, below_target_second_le_first 1000000000 0 (by decide)⟩

/-- C6 (amended): monotonicity in block weight holds for multipliers in the
invariant range `m >= -1.0`.  For `w1 <= w2 <= max_weight` the update at `w1`
is at most the update at `w2`: below the target the subtracted adjustment
shrinks as the weight grows, above the target the added excess grows, and the
two branches are ordered through the multiplier itself. -/
theorem convert_monotone_in_weight_amended (max_weight w1 w2 : Nat) (m : Int)
    (hm : -1000000000 ≤ m) (h12 : w1 ≤ w2) (h2M : w2 ≤ max_weight) :
    convert max_weight w1 m ≤ convert max_weight w2 m := by
  unfold convert
  rcases Nat.lt_or_ge w1 (targetWeight max_weight) with hw1 | hw1
  · rcases Nat.lt_or_ge w2 (targetWeight max_weight) with hw2 | hw2
    · -- both strictly below the target: negative branch on both sides
      rw [if_neg (by omega), if_neg (by omega)]
      have hs1 := secondTerm_below_target hw1
      have hs2 := secondTerm_below_target hw2
      have hd : diffAbs max_weight w2 ≤ diffAbs max_weight w1 := by
        rw [diffAbs_of_le_target hw1.le, diffAbs_of_le_target hw2.le]
        omega
      have hf : firstTerm max_weight w2 ≤ firstTerm max_weight w1 :=
        firstTerm_mono (diffParts_mono hd)
      rw [hs1, hs2]
      have hfI : ((firstTerm max_weight w2 : Nat) : Int) ≤ (firstTerm max_weight w1 : Nat) := by
        exact_mod_cast hf
      unfold satSubI
      omega
    · -- `w1` below, `w2` at or above the target
      rw [if_neg (by omega), if_pos hw2]
      have hs1 := secondTerm_below_target hw1
      rw [hs1]
      have hf1 : (0 : Int) ≤ (firstTerm max_weight w1 : Nat) := Int.ofNat_nonneg _
      have he2 : (0 : Int) ≤
          (sat64 (firstTerm max_weight w2 + secondTerm max_weight w2) : Nat) :=
        Int.ofNat_nonneg _
      unfold satSubI satAddI
      omega
  · -- both at or above the target: positive branch on both sides
    rw [if_pos hw1, if_pos (by omega)]
    have hd : diffAbs max_weight w1 ≤ diffAbs max_weight w2 := by
      rw [diffAbs_of_target_le hw1, diffAbs_of_target_le (by omega)]
      omega
    have hx := diffParts_mono hd
    have he : sat64 (firstTerm max_weight w1 + secondTerm max_weight w1) ≤
        sat64 (firstTerm max_weight w2 + secondTerm max_weight w2) :=
      sat64_mono (Nat.add_le_add (firstTerm_mono hx) (secondTerm_mono hx))
    have heI : ((sat64 (firstTerm max_weight w1 + secondTerm max_weight w1) : Nat) : Int) ≤
        (sat64 (firstTerm max_weight w2 + secondTerm max_weight w2) : Nat) := by
      exact_mod_cast he
    unfold satAddI
    omega

theorem convert_monotone_in_weight_amended_witness :
    -1000000000 ≤ (0 : Int) ∧ (0 : Nat) ≤ 1000000000 ∧ (1000000000 : Nat) ≤ 1000000000 ∧
      convert 1000000000 0 0 ≤ convert 1000000000 1000000000 0 :=
  ⟨by decide, by decide, by decide,
    convert_monotone_in_weight_amended 1000000000 0 1000000000 0
      (by decide) (by decide) (by decide)⟩

/-- C6 counterexample: the claim quantifies over every previous multiplier, but
for a multiplier below the `-1.0` floor (here `-2.0`, mantissa `-2*10^9`,
with `max_weight = 10^9` so the target weight is `250_000_000`) the update is
not monotone: at weight `0` the below-target branch clamps the result up to
`-1.0`, while at the target weight the result is the unchanged `-2.0`. -/
theorem convert_not_monotone_below_floor_cex :
    (0 : Nat) ≤ 250000000 ∧ (250000000 : Nat) ≤ 1000000000 ∧
      convert 1000000000 250000000 (-2000000000) <
        convert 1000000000 0 (-2000000000) := by
  decide

end FeeMultiplierClaims

section CurrencyToVoteClaims

open CurrencyToVoteHandler

/-- C5 counterexample: with total issuance `1` the factor is `1`, and the
Balance -> u64 direction at input `2^64` wraps (the `as u64` cast truncates to
the low 64 bits, giving `0`) instead of clamping to `u64::MAX` as the claim
states. -/
theorem currency_to_vote_wraps_cex :
    convertToVote 1 18446744073709551616 = 0 ∧
      convertToVoteClamped 1 18446744073709551616 = 18446744073709551615 ∧
      (0 : Nat) ≠ 18446744073709551615 := by
  refine ⟨?_, ?_, by decide⟩
  · show 18446744073709551616 / factor 1 % 18446744073709551616 = 0
    norm_num [factor]
  · show min (18446744073709551616 / factor 1) 18446744073709551615 = 18446744073709551615
    norm_num [factor]

/-- C5 (amended): both directions of the balance/vote conversion are total
functions, but on overflow of the target range they truncate (wrap) rather
than clamp: Balance -> u64 reduces `x / factor` modulo `2^64` and
u128 -> Balance computes `x * factor` modulo `2^128`.  Whenever the exact value
fits the target range the conversions return it unchanged. -/
theorem currency_to_vote_total_amended (total_issuance x : Nat) :
    convertToVote total_issuance x < 18446744073709551616 ∧
      (x / factor total_issuance < 18446744073709551616 →
        convertToVote total_issuance x = x / factor total_issuance) ∧
      (x * factor total_issuance < 340282366920938463463374607431768211456 →
        convertToBalance total_issuance x = x * factor total_issuance) := by
  refine ⟨Nat.mod_lt _ (by norm_num), fun h => Nat.mod_eq_of_lt h, fun h => Nat.mod_eq_of_lt h⟩

theorem currency_to_vote_total_amended_witness :
    convertToVote 1 5 < 18446744073709551616 ∧
      (5 / factor 1 < 18446744073709551616 →
        convertToVote 1 5 = 5 / factor 1) ∧
      (5 * factor 1 < 340282366920938463463374607431768211456 →
        convertToBalance 1 5 = 5 * factor 1) :=
  currency_to_vote_total_amended 1 5

end CurrencyToVoteClaims

/-! ## GasHandler: the two-phase gas payment protocol

`fill_gas` and `empty_unused_gas` from `impls.rs`, with the external
collaborators of spec section 6 (the Currency collaborator, the CENNZX spot
exchange Oracle and the generic-asset ledger) modelled at their interfaces.
Account ids and asset ids are opaque and modelled as `Nat`. -/

/-- `2^128`: the modulus of the `u128` `Balance` type. -/
def u128Mod : Nat := 340282366920938463463374607431768211456

/-- `u128::checked_mul`: `some` of the product when it is representable,
`none` on overflow. -/
def checkedMul (a b : Nat) : Option Nat :=
  if a * b < u128Mod then some (a * b) else none

/-- `FeeExchange { asset_id, max_payment }`: the transient per-transaction
intent to pay gas in a nominated asset, capped at `max_payment`. -/
structure FeeExchange where
  assetId : Nat
  maxPayment : Nat
deriving DecidableEq

/-- `pallet_contracts::GasMeter`: the gas limit, the gas still unspent, and the
gas price recorded when the meter was filled. -/
structure GasMeter where
  gasLimit : Nat
  gasLeft : Nat
  gasPrice : Nat
deriving DecidableEq

/-- `GasMeter::with_limit(gas_limit, gas_price)`: a full meter. -/
def GasMeter.withLimit (limit price : Nat) : GasMeter :=
  { gasLimit := limit, gasLeft := limit, gasPrice := price }

/-- `GasMeter::spent() = gas_limit - gas_left`. -/
def GasMeter.spent (m : GasMeter) : Nat := m.gasLimit - m.gasLeft

/-- The ledger state visible to the gas handler: the current global gas price
(`Contracts::gas_price()`), native free balances, per-asset free balances, the
transient `GAS_FEE_EXCHANGE_KEY` storage slot, and the fee sink fed by
`T::GasPayment::on_unbalanced`. -/
structure State where
  gasPrice : Nat
  nativeBalance : Nat → Nat
  assetBalance : Nat → Nat → Nat
  feeExchange : Option FeeExchange
  feePot : Nat

/-- The `DispatchError` values `fill_gas` can produce, plus the error space of
the external collaborators. -/
inductive Err where
  | overflowGasCost
  | exceedsMaxPayment
  | insufficientLiquidity
  | withdrawalRejected
  | quoteFailed
  | purchaseFailed
deriving DecidableEq

/-- The external collaborators of spec section 6, modelled at their
interfaces: the keep-alive existence rule consulted by the native
`Currency::withdraw`, the Oracle quote
`CennzxSpot::get_asset_to_core_output_price` (the pool fee rate is folded into
the function), the asset ledger's `ensure_can_withdraw` check, and the Oracle
purchase `CennzxSpot::buy_fee_asset` which on success returns the updated
ledger state. -/
structure Env where
  keepAliveOk : Nat → Nat → Bool
  quote : Nat → Nat → Except Err Nat
  ensureCanWithdraw : Nat → Nat → Nat → Nat → Bool
  buyFeeAsset : Nat → Nat → FeeExchange → State → Except Err State

/-- Modelled from the spec: the native Currency collaborator's
`withdraw(account, amount, Fee, KeepAlive)` (spec sections 4.3 and 6).  It
fails without touching any balance when the account cannot cover `amount` or
when the keep-alive existence rule rejects the resulting balance; on success
it debits exactly `amount`. -/
def withdrawNative (env : Env) (st : State) (who amount : Nat) : Except Err State :=
  if amount ≤ st.nativeBalance who ∧ env.keepAliveOk who (st.nativeBalance who - amount) then
    Except.ok { st with
      nativeBalance := fun a =>
        if a = who then st.nativeBalance who - amount else st.nativeBalance a }
  else
    Except.error Err.withdrawalRejected

/-- Modelled from the spec: the native Currency collaborator's
`deposit_creating(account, amount)` (spec section 6) mints `amount` into the
account, saturating at the `Balance` range. -/
def depositCreating (st : State) (who amount : Nat) : State :=
  { st with
    nativeBalance := fun a =>
      if a = who then min (st.nativeBalance who + amount) (u128Mod - 1)
      else st.nativeBalance a }

/-- `GasHandler::fill_gas(transactor, gas_limit)`.  The pair returned threads
the ledger state through the call: the first component is the Rust return
value, the second the state after the call.  The structure mirrors the source:
free gas short-circuits; the fill cost is a checked multiply; with no exchange
intent the native currency is withdrawn up front and handed to the fee sink;
with an intent the cost is quoted in the nominated asset, checked against
`max_payment` and against liquidity, and no balance is moved. -/
def fill_gas (env : Env) (st : State) (transactor gas_limit : Nat) :
    Except Err GasMeter × State :=
  if st.gasPrice = 0 then
    (Except.ok (GasMeter.withLimit gas_limit st.gasPrice), st)
  else
    match checkedMul st.gasPrice gas_limit with
    | none => (Except.error Err.overflowGasCost, st)
    | some fill_meter_cost =>
      match st.feeExchange with
      | none =>
        match withdrawNative env st transactor fill_meter_cost with
        | Except.error e => (Except.error e, st)
        | Except.ok st1 =>
          (Except.ok (GasMeter.withLimit gas_limit st.gasPrice),
            { st1 with feePot := st1.feePot + fill_meter_cost })
      | some exchange_op =>
        match env.quote exchange_op.assetId fill_meter_cost with
        | Except.error e => (Except.error e, st)
        | Except.ok converted_cost =>
          if exchange_op.maxPayment < converted_cost then
            (Except.error Err.exceedsMaxPayment, st)
          else
            if converted_cost ≤ st.assetBalance exchange_op.assetId transactor then
              if env.ensureCanWithdraw exchange_op.assetId transactor converted_cost
                  (st.assetBalance exchange_op.assetId transactor - converted_cost) then
                (Except.ok (GasMeter.withLimit gas_limit st.gasPrice), st)
              else
                (Except.error Err.withdrawalRejected, st)
            else
              (Except.error Err.insufficientLiquidity, st)

/-- `GasHandler::empty_unused_gas(transactor, gas_meter)`.  `gas_left` and
`gas_spent` come from the meter, while the gas price is re-read from the
current global state (`Contracts::gas_price()`).  `take` on the transient slot
kills the entry.  With an intent, the used-gas cost is a checked multiply and
the Oracle purchase's result is discarded; without one, the checked refund is
minted back to the transactor.  A failed checked multiply skips settlement. -/
def empty_unused_gas (env : Env) (st : State) (transactor : Nat) (gas_meter : GasMeter) :
    State :=
  match st.feeExchange with
  | some exchange_op =>
    match checkedMul st.gasPrice gas_meter.spent with
    | some used_gas_cost =>
      match env.buyFeeAsset transactor used_gas_cost exchange_op
          { st with feeExchange := none } with
      | Except.ok st2 => st2
      | Except.error _ => { st with feeExchange := none }
    | none => { st with feeExchange := none }
  | none =>
    match checkedMul st.gasPrice gas_meter.gasLeft with
    | some refund => depositCreating st transactor refund
    | none => st

/-- On the no-intent path, a successful checked multiply mints the refund:
the transactor's balance after `empty_unused_gas` is the deposit of `refund`. -/
theorem empty_unused_gas_native_refund (env : Env) (st : State) (t : Nat)
    (mt : GasMeter) (refund : Nat) (hfx : st.feeExchange = none)
    (hmul : checkedMul st.gasPrice mt.gasLeft = some refund) :
    (empty_unused_gas env st t mt).nativeBalance t =
      min (st.nativeBalance t + refund) (u128Mod - 1) := by
  simp only [empty_unused_gas, hfx, hmul, depositCreating]
  simp

/-! ### Concrete fixtures used by witnesses and counterexamples -/

/-- An environment where every collaborator check passes, quotes are at par
and purchases succeed without side effects. -/
def testEnv : Env :=
  { keepAliveOk := fun _ _ => true
    quote := fun _ c => Except.ok c
    ensureCanWithdraw := fun _ _ _ _ => true
    buyFeeAsset := fun _ _ _ s => Except.ok s }

/-- An environment whose exchange purchase always fails. -/
def failEnv : Env :=
  { testEnv with buyFeeAsset := fun _ _ _ _ => Except.error Err.purchaseFailed }

/-- Gas price `1`, native balance `1000`, no pending exchange intent. -/
def stBase : State :=
  { gasPrice := 1
    nativeBalance := fun _ => 1000
    assetBalance := fun _ _ => 0
    feeExchange := none
    feePot := 0 }

/-- Like `stBase` but with an empty native balance. -/
def stPoor : State := { stBase with nativeBalance := fun _ => 0 }

/-- A concrete exchange intent: pay in asset `7`, at most `50`. -/
def exOp : FeeExchange := { assetId := 7, maxPayment := 50 }

/-- Like `stBase` but with the exchange intent `exOp` pending. -/
def stIntent : State := { stBase with feeExchange := some exOp }

/-- `2^127`: a gas price whose product with any gas amount `>= 2` overflows
`u128`. -/
def bigPrice : Nat := 170141183460469231731687303715884105728

/-- Intent pending and an overflowing gas price. -/
def stBigIntent : State := { stIntent with gasPrice := bigPrice }

/-- No intent and an overflowing gas price. -/
def stBigNoIntent : State := { stBase with gasPrice := bigPrice }

section GasClaims

/-- C2: whenever `fill_gas` returns an error — overflow of the gas-cost
multiply, a failed quote, a quoted cost above `max_payment`, insufficient
liquidity, or a rejected withdrawal — the state after the call is exactly the
state before it: every error exit happens before any balance or transient
mutation. -/
theorem fill_gas_error_leaves_state (env : Env) (st : State) (t L : Nat) :
    ∀ e r, fill_gas env st t L = (Except.error e, r) → r = st := by
  intro e r
  unfold fill_gas
  repeat' split
  all_goals intro h
  all_goals simp_all

theorem fill_gas_error_leaves_state_witness :
    (fill_gas testEnv stPoor 0 100).fst = Except.error Err.withdrawalRejected ∧
      (fill_gas testEnv stPoor 0 100).snd = stPoor :=
  ⟨rfl,
    fill_gas_error_leaves_state testEnv stPoor 0 100 Err.withdrawalRejected
      (fill_gas testEnv stPoor 0 100).snd rfl⟩

/-- C8: `empty_unused_gas` returns plain state (no error channel), and when an
intent is pending and the exchange purchase of the used-gas cost fails, the
failure is swallowed: the result is the pre-call state with only the transient
intent slot cleared — no rollback, no propagation. -/
theorem empty_unused_gas_swallows_purchase_failure (env : Env) (st : State)
    (t : Nat) (mt : GasMeter) (ex : FeeExchange) (c : Nat) (e : Err)
    (h1 : st.feeExchange = some ex)
    (h2 : checkedMul st.gasPrice mt.spent = some c)
    (h3 : env.buyFeeAsset t c ex { st with feeExchange := none } = Except.error e) :
    empty_unused_gas env st t mt = { st with feeExchange := none } := by
  simp only [empty_unused_gas, h1, h2, h3]

theorem empty_unused_gas_swallows_purchase_failure_witness :
    stIntent.feeExchange = some exOp ∧
      checkedMul stIntent.gasPrice (GasMeter.spent ⟨4, 1, 1⟩) = some 3 ∧
      failEnv.buyFeeAsset 0 3 exOp { stIntent with feeExchange := none } =
        Except.error Err.purchaseFailed ∧
      empty_unused_gas failEnv stIntent 0 ⟨4, 1, 1⟩ = { stIntent with feeExchange := none } :=
  ⟨rfl, rfl, rfl,
    empty_unused_gas_swallows_purchase_failure failEnv stIntent 0 ⟨4, 1, 1⟩ exOp 3
      Err.purchaseFailed rfl rfl rfl⟩

/-- C10: if the checked multiply inside `empty_unused_gas` overflows, the
settlement step is skipped silently: on the exchange path no purchase is made
and only the intent slot is cleared; on the native path no refund is credited
and the state is returned unchanged. -/
theorem empty_unused_gas_skips_on_overflow (env : Env) (st : State) (t : Nat)
    (mt : GasMeter) :
    (∀ ex, st.feeExchange = some ex → checkedMul st.gasPrice mt.spent = none →
      empty_unused_gas env st t mt = { st with feeExchange := none }) ∧
    (st.feeExchange = none → checkedMul st.gasPrice mt.gasLeft = none →
      empty_unused_gas env st t mt = st) := by
  constructor
  · intro ex h1 h2
    simp only [empty_unused_gas, h1, h2]
  · intro h1 h2
    simp only [empty_unused_gas, h1, h2]

theorem empty_unused_gas_skips_on_overflow_witness :
    (stBigIntent.feeExchange = some exOp ∧
      checkedMul stBigIntent.gasPrice (GasMeter.spent ⟨4, 0, 0⟩) = none ∧
      empty_unused_gas testEnv stBigIntent 0 ⟨4, 0, 0⟩ =
        { stBigIntent with feeExchange := none }) ∧
    (stBigNoIntent.feeExchange = none ∧
      checkedMul stBigNoIntent.gasPrice (GasMeter.gasLeft ⟨4, 4, 0⟩) = none ∧
      empty_unused_gas testEnv stBigNoIntent 0 ⟨4, 4, 0⟩ = stBigNoIntent) :=
  ⟨⟨rfl, rfl,
      (empty_unused_gas_skips_on_overflow testEnv stBigIntent 0 ⟨4, 0, 0⟩).1 exOp rfl rfl⟩,
    ⟨rfl, rfl,
      (empty_unused_gas_skips_on_overflow testEnv stBigNoIntent 0 ⟨4, 4, 0⟩).2 rfl rfl⟩⟩

/-- C4 counterexample: settlement amounts do depend on the current global
gas-price state, not on the price recorded in the meter.  Two states that are
identical except for the global gas price (`2` versus `1`), settled with the
same meter (recorded fill-time price `1`, `gas_left = 70`), credit different
refunds: `2 * 70` versus `1 * 70`. -/
theorem empty_unused_gas_uses_current_price_cex :
    (empty_unused_gas testEnv { stBase with gasPrice := 2 } 0 ⟨100, 70, 1⟩).nativeBalance 0 =
        1140 ∧
      (empty_unused_gas testEnv stBase 0 ⟨100, 70, 1⟩).nativeBalance 0 = 1070 ∧
      (1140 : Nat) ≠ 1070 :=
  ⟨rfl, rfl, by decide⟩

/-- C4 (amended): `empty_unused_gas` computes `gas_spent` and `gas_left` from
the meter — the meter's recorded gas price is never read, so the result is
unchanged under any change of that field — but the gas price used for
settlement is re-read from the current global state: on the native path the
amount minted is exactly the current `st.gasPrice * gas_left`. -/
theorem empty_unused_gas_settlement_amended :
    (∀ (env : Env) (st : State) (t limit left p q : Nat),
      empty_unused_gas env st t ⟨limit, left, p⟩ = empty_unused_gas env st t ⟨limit, left, q⟩) ∧
    (∀ (env : Env) (st : State) (t : Nat) (mt : GasMeter) (c : Nat),
      st.feeExchange = none → checkedMul st.gasPrice mt.gasLeft = some c →
        empty_unused_gas env st t mt = depositCreating st t c) := by
  constructor
  · intro env st t limit left p q
    rfl
  · intro env st t mt c h1 h2
    simp only [empty_unused_gas, h1, h2]

theorem empty_unused_gas_settlement_amended_witness :
    stBase.feeExchange = none ∧
      checkedMul stBase.gasPrice (GasMeter.gasLeft ⟨100, 70, 1⟩) = some 70 ∧
      empty_unused_gas testEnv stBase 0 ⟨100, 70, 1⟩ = depositCreating stBase 0 70 :=
  ⟨rfl, rfl,
    empty_unused_gas_settlement_amended.2 testEnv stBase 0 ⟨100, 70, 1⟩ 70 rfl rfl⟩

/-- Common settlement tail for the round-trip: from any post-fill state whose
balance was debited by `p * L`, emptying a meter with `L - s` gas left mints
`p * (L - s)` back, for a net cost of `p * s`. -/
theorem net_cost_core (env : Env) (st1 : State) (t L s p bal : Nat)
    (hs : s ≤ L) (hbal : bal < u128Mod)
    (hA : st1.feeExchange = none) (hB : st1.gasPrice = p)
    (hC : st1.nativeBalance t = bal - p * L)
    (hD : p * L ≤ bal) (hE : p * L < u128Mod) :
    (empty_unused_gas env st1 t ⟨L, L - s, p⟩).nativeBalance t + p * s = bal := by
  have hlt : p * (L - s) < u128Mod :=
    lt_of_le_of_lt (Nat.mul_le_mul_left _ (Nat.sub_le _ _)) hE
  have hmul : checkedMul st1.gasPrice (GasMeter.gasLeft ⟨L, L - s, p⟩) =
      some (p * (L - s)) := by
    rw [hB]
    unfold checkedMul
    rw [if_pos hlt]
  rw [empty_unused_gas_native_refund env st1 t _ _ hA hmul, hC]
  have hps : p * s ≤ p * L := Nat.mul_le_mul_left _ hs
  have hsub : p * (L - s) + p * s = p * L := by
    rw [← Nat.mul_add, Nat.sub_add_cancel hs]
  unfold u128Mod at *
  omega

/-- C1: round trip with no exchange intent.  If `fill_gas` succeeds with no
intent pending and `empty_unused_gas` then runs on the returned meter with
`s <= L` gas spent, the transactor's native balance decreases by exactly
`gas_price * s` in total: the fill withdrew `gas_price * L` and the settlement
minted back `gas_price * (L - s)`. -/
theorem fill_then_empty_net_cost (env : Env) (st : State) (t L s : Nat)
    (hs : s ≤ L) (hbal : st.nativeBalance t < u128Mod)
    (hfx : st.feeExchange = none) (mt : GasMeter) (st1 : State)
    (hfill : fill_gas env st t L = (Except.ok mt, st1)) :
    (empty_unused_gas env st1 t ⟨L, L - s, st.gasPrice⟩).nativeBalance t
      + st.gasPrice * s = st.nativeBalance t := by
  by_cases hp : st.gasPrice = 0
  · -- gas is free: the fill left the state untouched
    unfold fill_gas at hfill
    rw [if_pos hp] at hfill
    injection hfill with h1 h2
    subst h2
    refine net_cost_core env st t L s st.gasPrice (st.nativeBalance t) hs hbal hfx rfl ?_ ?_ ?_
    · rw [hp]
      simp
    · rw [hp]
      simp
    · rw [hp]
      simp [u128Mod]
  · -- paid gas: the fill debited the full limit cost
    unfold fill_gas at hfill
    rw [if_neg hp] at hfill
    cases hmulc : checkedMul st.gasPrice L with
    | none =>
      simp only [hmulc] at hfill
      injection hfill with h1 h2
      exact Except.noConfusion h1
    | some cost =>
      simp only [hmulc, hfx] at hfill
      cases hw : withdrawNative env st t cost with
      | error e =>
        simp only [hw] at hfill
        injection hfill with h1 h2
        exact Except.noConfusion h1
      | ok st2 =>
        simp only [hw] at hfill
        injection hfill with h1 h2
        subst h2
        have hcost : st.gasPrice * L = cost ∧ st.gasPrice * L < u128Mod := by
          unfold checkedMul at hmulc
          split at hmulc
          · exact ⟨Option.some.injEq _ _ ▸ hmulc, by assumption⟩
          · exact Option.noConfusion hmulc
        unfold withdrawNative at hw
        split at hw
        · injection hw with hst2
          subst hst2
          rename_i hcond
          refine net_cost_core env _ t L s st.gasPrice (st.nativeBalance t) hs hbal
            hfx rfl ?_ ?_ hcost.2
          · show (if t = t then st.nativeBalance t - cost else st.nativeBalance t) =
              st.nativeBalance t - st.gasPrice * L
            rw [if_pos rfl, hcost.1]
          · rw [hcost.1]
            exact hcond.1
        · exact Except.noConfusion hw

theorem fill_then_empty_net_cost_witness :
    (30 : Nat) ≤ 100 ∧ stBase.feeExchange = none ∧
      (empty_unused_gas testEnv (fill_gas testEnv stBase 0 100).snd 0
          ⟨100, 100 - 30, stBase.gasPrice⟩).nativeBalance 0
        + stBase.gasPrice * 30 = stBase.nativeBalance 0 :=
  ⟨by decide, rfl,
    fill_then_empty_net_cost testEnv stBase 0 100 30 (by decide) (by decide) rfl
      (GasMeter.withLimit 100 stBase.gasPrice) (fill_gas testEnv stBase 0 100).snd rfl⟩

end GasClaims

end Impls
